import Mathlib

/-!
Verification of the Chronix significant-location core.

This file gives a shallow embedding, in Lean, of the location-detection,
classification, storage and timeline-merge logic of the Chronix repository
(`LocationService`, the background location task, `LocationHistoryModal`,
`FeedScreen.handleSaveTimeline`, `DatabaseService.createTimelineEntry`), and
proves or refutes the specification claims about it.

Modelling conventions:
* JavaScript numbers used as coordinates/distances are modelled as `ℚ`;
  timestamps (epoch milliseconds, and ISO strings compared via `new Date`)
  are modelled as `Int` millisecond values.  Two ISO timestamps produced by
  `toISOString` are equal as strings iff their millisecond values are equal,
  so exact-string de-duplication is modelled as `Int` equality.
* The haversine `calculateDistance` and the asynchronous reverse-geocode
  lookup are floating-point / IO computations; the detector logic only ever
  compares the distance against the 100 m radius and consumes the looked-up
  label, so they are passed to the embedded step function as explicit
  function parameters (`calcDist`, `getName`), and `Date.now()` is passed
  as an explicit `now` parameter.
* AsyncStorage is modelled as a total key-value map `String → List …`;
  a class field that is `null` is an `Option` that is `none`.  (A JS
  truthiness test on a stored epoch timestamp is modelled as presence of
  the `Option`; epoch 0 never occurs.)
-/

namespace Chronix

/-- `STATIONARY_THRESHOLD = 5 * 60 * 1000` (5 minutes), from `LocationService`. -/
def STATIONARY_THRESHOLD : Int := 5 * 60 * 1000

/-- `LOCATION_RADIUS = 100` meters, from `LocationService`. -/
def LOCATION_RADIUS : ℚ := 100

/-- `LocationData` from `LocationService`: a raw fix.  `timestamp` is the
ISO capture time modelled by its epoch-millisecond value; `locationName`
is the optional reverse-geocoded label. -/
structure LocationData where
  latitude : ℚ
  longitude : ℚ
  timestamp : Int
  locationName : Option String
  deriving DecidableEq, Inhabited

/-- The mutable detector fields of the `LocationService` singleton:
`lastLocationUpdate`, `stationaryStartTime` and `lastSignificantLocation`
(the latter reflecting the in-memory field after the lazy load from the
`last_significant_location` storage key). -/
structure DetectorState where
  lastLocationUpdate : Option LocationData
  stationaryStartTime : Option Int
  lastSignificantLocation : Option LocationData
  deriving DecidableEq, Inhabited

/-- The detector state of a first-ever run: every field starts `null` and
the storage key is empty. -/
def initialDetectorState : DetectorState :=
  { lastLocationUpdate := none
    stationaryStartTime := none
    lastSignificantLocation := none }

/-- JS `String.prototype.toLowerCase`, modelled on the character list
(ASCII lowering, which covers the alphabet of the labels concerned). -/
def jsToLower (s : String) : String :=
  String.mk (s.data.map Char.toLower)

/-- Helper for `jsSplit`: split a character list at every occurrence of
`sep`, JS style (splitting the empty string yields `[""]`, and empty
fields are preserved). -/
def jsSplitAux (sep : Char) : List Char → List Char → List String
  | [], acc => [String.mk acc.reverse]
  | c :: cs, acc =>
    if c = sep then String.mk acc.reverse :: jsSplitAux sep cs []
    else jsSplitAux sep cs (c :: acc)

/-- JS `String.prototype.split` with a single-character separator. -/
def jsSplit (s : String) (sep : Char) : List String :=
  jsSplitAux sep s.data []

/-- JS `String.prototype.trim`: strip leading and trailing whitespace. -/
def jsTrim (s : String) : String :=
  String.mk (((s.data.dropWhile Char.isWhitespace).reverse.dropWhile
    Char.isWhitespace).reverse)

/-- Occurrence of `ps` at the head of the second list (helper for
`jsIncludes`). -/
def charsAtHead : List Char → List Char → Bool
  | [], _ => true
  | _ :: _, [] => false
  | p :: ps, c :: cs => p == c && charsAtHead ps cs

/-- Helper for `jsIncludes`: occurrence of `ps` anywhere in the list. -/
def jsIncludesAux (ps : List Char) : List Char → Bool
  | [] => charsAtHead ps []
  | l@(_ :: cs) => charsAtHead ps l || jsIncludesAux ps cs

/-- JS `String.prototype.includes`: substring occurrence test. -/
def jsIncludes (s pat : String) : Bool :=
  jsIncludesAux pat.data s.data

/-- The label parts used by `hasLocationNameChanged`: the label lower-cased,
split on commas, each part trimmed
(`name.toLowerCase().split(',').map(part => part.trim())`). -/
def labelParts (name : String) : List String :=
  (jsSplit (jsToLower name) ',').map jsTrim

/-- `LocationService.hasLocationNameChanged`: structured comparison of two
labels.  Empty label on either side ⇒ changed; otherwise compare part 0,
then part 1 when both sides have one, then part 2 when both sides have one. -/
def hasLocationNameChanged (oldName newName : String) : Bool :=
  if oldName = "" ∨ newName = "" then true
  else if (labelParts oldName).getD 0 "" ≠ (labelParts newName).getD 0 "" then true
  else if 1 < (labelParts oldName).length ∧ 1 < (labelParts newName).length ∧
      (labelParts oldName).getD 1 "" ≠ (labelParts newName).getD 1 "" then true
  else if 2 < (labelParts oldName).length ∧ 2 < (labelParts newName).length ∧
      (labelParts oldName).getD 2 "" ≠ (labelParts newName).getD 2 "" then true
  else false

/-- The specification's wording of the place-change comparison: labels are
the same place iff both labels are non-empty, part 0 is equal, either side
lacks part 1 or part 1 is equal, and either side lacks part 2 or part 2 is
equal. -/
def samePlaceSpec (a b : String) : Prop :=
  a ≠ "" ∧ b ≠ "" ∧
  (labelParts a).getD 0 "" = (labelParts b).getD 0 "" ∧
  ((labelParts a).length ≤ 1 ∨ (labelParts b).length ≤ 1 ∨
    (labelParts a).getD 1 "" = (labelParts b).getD 1 "") ∧
  ((labelParts a).length ≤ 2 ∨ (labelParts b).length ≤ 2 ∨
    (labelParts a).getD 2 "" = (labelParts b).getD 2 "")

/-- `LocationService.checkForSignificantLocationChange`, embedded as a pure
step on `DetectorState`.  Parameters: `calcDist` abstracts the haversine
`calculateDistance` (the logic only compares its value with
`LOCATION_RADIUS`), `getName` abstracts the asynchronous `getLocationName`
lookup, `now` is `Date.now()` at this invocation.  Returns the updated
state and the boolean result.  The initial lazy storage load is reflected
in `lastSignificantLocation` already holding the stored value (see
`restoreDetectorState`). -/
def checkForSignificantLocationChange
    (calcDist : ℚ → ℚ → ℚ → ℚ → ℚ) (getName : ℚ → ℚ → String) (now : Int)
    (s : DetectorState) (newLocation : LocationData) : DetectorState × Bool :=
  match s.lastSignificantLocation with
  | none =>
      ({ s with lastLocationUpdate := some newLocation,
                stationaryStartTime := some now }, false)
  | some lastSignificant =>
    match s.lastLocationUpdate with
    | none =>
        ({ s with lastLocationUpdate := some newLocation,
                  stationaryStartTime := some now }, false)
    | some lastUpdate =>
      let distance := calcDist lastUpdate.latitude lastUpdate.longitude
          newLocation.latitude newLocation.longitude
      if LOCATION_RADIUS < distance then
        ({ s with lastLocationUpdate := some newLocation,
                  stationaryStartTime := some now }, false)
      else
        match s.stationaryStartTime with
        | some stationaryStart =>
          if distance ≤ LOCATION_RADIUS then
            if STATIONARY_THRESHOLD ≤ now - stationaryStart then
              let newLocationName := getName newLocation.latitude newLocation.longitude
              let labeled := { newLocation with locationName := some newLocationName }
              if hasLocationNameChanged (lastSignificant.locationName.getD "")
                  newLocationName then
                ({ s with lastSignificantLocation := some labeled,
                          stationaryStartTime := some now }, true)
              else (s, false)
            else (s, false)
          else (s, false)
        | none => (s, false)

/-- The background location task: feed fixes (each with its `Date.now()`
value) to the detector one at a time, collecting the boolean results. -/
def runDetector (calcDist : ℚ → ℚ → ℚ → ℚ → ℚ) (getName : ℚ → ℚ → String)
    (s : DetectorState) : List (Int × LocationData) → DetectorState × List Bool
  | [] => (s, [])
  | p :: rest =>
    let res := checkForSignificantLocationChange calcDist getName p.1 s p.2
    let tail := runDetector calcDist getName res.1 rest
    (tail.1, res.2 :: tail.2)

/-- `saveLastSignificantLocation`: the only detector field ever written to
durable storage (the `last_significant_location` key) is
`lastSignificantLocation`; `lastLocationUpdate` and `stationaryStartTime`
are plain in-memory class fields. -/
def persistDetectorState (s : DetectorState) : Option LocationData :=
  s.lastSignificantLocation

/-- The detector state after a process restart: the class fields
re-initialize to `null`, and `loadLastSignificantLocation` repopulates
`lastSignificantLocation` from the stored blob on the next detector call. -/
def restoreDetectorState (saved : Option LocationData) : DetectorState :=
  { lastLocationUpdate := none
    stationaryStartTime := none
    lastSignificantLocation := saved }

/-- `LocationService.saveSignificantLocation`: the per-day AsyncStorage map
(`significant_locations_<day>` keys) after appending `location` to
`todayKey`'s list and dropping entries whose timestamp is not strictly
newer than 24 hours before `now`.  Only `todayKey`'s list is rewritten.
`todayKey` is the `YYYY-MM-DD` day string computed from the clock by the
caller. -/
def saveSignificantLocation (store : String → List LocationData)
    (todayKey : String) (location : LocationData) (now : Int) :
    String → List LocationData :=
  let locations := store todayKey ++ [location]
  let oneDayAgo := now - 24 * 60 * 60 * 1000
  let filteredLocations := locations.filter fun loc =>
    decide (oneDayAgo < loc.timestamp)
  fun key => if key = todayKey then filteredLocations else store key

/-- `LocationService.loadSignificantLocations`: read one day's list. -/
def loadSignificantLocations (store : String → List LocationData)
    (dateKey : String) : List LocationData :=
  store dateKey

/-- `LocationService.getLocationIcon`: keyword-matched icon for a label. -/
def getLocationIcon (locationName : String) : String :=
  let name := jsToLower locationName
  if jsIncludes name "home" || jsIncludes name "house" then "🏠"
  else if jsIncludes name "work" || jsIncludes name "office" then "💼"
  else if jsIncludes name "gym" || jsIncludes name "fitness" then "💪"
  else if jsIncludes name "restaurant" || jsIncludes name "cafe" ||
      jsIncludes name "food" then "🍽️"
  else if jsIncludes name "park" || jsIncludes name "garden" then "🌳"
  else if jsIncludes name "mall" || jsIncludes name "shopping" then "🛍️"
  else if jsIncludes name "hospital" || jsIncludes name "clinic" then "🏥"
  else if jsIncludes name "school" || jsIncludes name "university" then "🎓"
  else if jsIncludes name "airport" || jsIncludes name "station" then "✈️"
  else if jsIncludes name "beach" || jsIncludes name "coast" then "🏖️"
  else if jsIncludes name "mountain" || jsIncludes name "hike" then "⛰️"
  else "📍"

/-- `EditableLocationEntry` from `LocationHistoryModal` (the UI-only
fields `isEditing`, `searchQuery`, `searchResults`, `isSearching` play no
part in the merge and are omitted). -/
structure EditableLocationEntry where
  id : Option Nat
  locationName : String
  timestamp : Int
  latitude : ℚ
  longitude : ℚ
  icon : String
  order : Nat
  deriving DecidableEq, Inhabited

/-- Conversion of one raw `LocationData` of the day's history into an
`EditableLocationEntry`, as in `handleAddFromLocationHistory`
(`order: entries.length + index`). -/
def editableFromLocation (baseLen : Nat) (i : Nat) (location : LocationData) :
    EditableLocationEntry :=
  { id := none
    locationName := location.locationName.getD "Unknown Location"
    timestamp := location.timestamp
    latitude := location.latitude
    longitude := location.longitude
    icon := getLocationIcon (location.locationName.getD "")
    order := baseLen + i }

/-- The `newEntries` array of `handleAddFromLocationHistory`. -/
def newEntriesOf (entries : List EditableLocationEntry)
    (locationHistory : List LocationData) : List EditableLocationEntry :=
  locationHistory.enum.map fun p => editableFromLocation entries.length p.1 p.2

/-- The `uniqueNewEntries` array of `handleAddFromLocationHistory`: incoming
entries whose timestamp does not already occur among `entries`. -/
def uniqueNewEntriesOf (entries : List EditableLocationEntry)
    (locationHistory : List LocationData) : List EditableLocationEntry :=
  (newEntriesOf entries locationHistory).filter fun e =>
    !((entries.map fun x => x.timestamp).contains e.timestamp)

/-- `merged.map((entry, index) => ({ ...entry, order: index }))`. -/
def reindexEntries (l : List EditableLocationEntry) : List EditableLocationEntry :=
  l.enum.map fun p => { p.2 with order := p.1 }

/-- `LocationHistoryModal.handleAddFromLocationHistory`, as a pure function
from the current entries and the day's raw location history to the merged
entry list (the code then stores this list with `setEntries`; when nothing
new is added it leaves the state untouched and only shows an alert). -/
def handleAddFromLocationHistory (entries : List EditableLocationEntry)
    (locationHistory : List LocationData) : List EditableLocationEntry :=
  let uniqueNewEntries := uniqueNewEntriesOf entries locationHistory
  if 0 < uniqueNewEntries.length then
    reindexEntries (entries ++ uniqueNewEntries)
  else entries

/-- Everything of an `EditableLocationEntry` except its `order` position. -/
def entryData (e : EditableLocationEntry) :
    Option Nat × String × Int × ℚ × ℚ × String :=
  (e.id, e.locationName, e.timestamp, e.latitude, e.longitude, e.icon)

/-- The `TimelineEntry` values handed to `FeedScreen.handleSaveTimeline`
(TS type from `DatabaseService`; optional fields are `Option`). -/
structure TimelineEntryInput where
  dailyEntryId : Nat
  locationName : String
  timestamp : Option String
  latitude : Option ℚ
  longitude : Option ℚ
  icon : Option String
  order : Nat
  deriving DecidableEq, Inhabited

/-- A persisted `timeline_entries` row (`id` from SQLite autoincrement). -/
structure TimelineRow where
  id : Nat
  dailyEntryId : Nat
  locationName : String
  timestamp : Option String
  latitude : Option ℚ
  longitude : Option ℚ
  icon : Option String
  order : Nat
  deriving DecidableEq, Inhabited

/-- JS falsiness of an optional string (`undefined` or `""`). -/
def jsFalsyStr : Option String → Bool
  | none => true
  | some s => s == ""

/-- `v || null` on an optional number (`0` and `undefined` are falsy). -/
def jsOrNullQ : Option ℚ → Option ℚ
  | none => none
  | some q => if q = 0 then none else some q

/-- `v || null` on an optional string (`""` and `undefined` are falsy). -/
def jsOrNullStr : Option String → Option String
  | none => none
  | some s => if s = "" then none else some s

/-- The validation applied to each batch entry inside
`handleSaveTimeline`'s create loop: `locationName` and `timestamp` must be
truthy. -/
def validTimelineInput (e : TimelineEntryInput) : Bool :=
  !(e.locationName == "" || jsFalsyStr e.timestamp)

/-- `DatabaseService.deleteTimelineEntry`: `DELETE … WHERE id = ?`. -/
def deleteTimelineEntry (db : List TimelineRow) (id : Nat) : List TimelineRow :=
  db.filter fun r => !(r.id == id)

/-- The delete loop of `handleSaveTimeline`: delete each cached existing
entry that has an `id` (`existingIds` are those cached `id` fields). -/
def deleteExistingEntries (db : List TimelineRow)
    (existingIds : List (Option Nat)) : List TimelineRow :=
  existingIds.foldl
    (fun d oid => match oid with
      | some i => deleteTimelineEntry d i
      | none => d) db

/-- The row `DatabaseService.createTimelineEntry` inserts for one batch
entry (`entry.timestamp || null`, `entry.latitude || null`, …;
`newEntry.order || 0` is the identity on a natural number `order`). -/
def rowOfInput (id : Nat) (currentId : Nat) (e : TimelineEntryInput) :
    TimelineRow :=
  { id := id
    dailyEntryId := currentId
    locationName := e.locationName
    timestamp := jsOrNullStr e.timestamp
    latitude := jsOrNullQ e.latitude
    longitude := jsOrNullQ e.longitude
    icon := jsOrNullStr e.icon
    order := e.order }

/-- The rows created for a batch whose entries are all valid, ids assigned
consecutively from `nextId`. -/
def createdRows (nextId : Nat) (currentId : Nat) :
    List TimelineEntryInput → List TimelineRow
  | [] => []
  | e :: rest => rowOfInput nextId currentId e :: createdRows (nextId + 1) currentId rest

/-- The create loop of `FeedScreen.handleSaveTimeline`: walk the batch in
order; an entry with falsy `locationName` or `timestamp` throws
`Timeline entry missing required fields` (caught and alerted), stopping
the loop with all earlier creations already persisted. -/
def handleSaveTimelineAux (currentId : Nat) :
    List TimelineRow → Nat → List TimelineEntryInput →
    List TimelineRow × Except String Unit
  | db, _, [] => (db, Except.ok ())
  | db, nextId, e :: rest =>
    if validTimelineInput e then
      handleSaveTimelineAux currentId (db ++ [rowOfInput nextId currentId e])
        (nextId + 1) rest
    else
      (db, Except.error "Timeline entry missing required fields")

/-- `FeedScreen.handleSaveTimeline` on the persisted rows: first delete all
cached existing entries for the current daily entry, then create the new
entries one at a time, validating each as it is reached. -/
def handleSaveTimeline (db : List TimelineRow) (nextId : Nat)
    (currentId : Nat) (existingIds : List (Option Nat))
    (entries : List TimelineEntryInput) :
    List TimelineRow × Except String Unit :=
  handleSaveTimelineAux currentId (deleteExistingEntries db existingIds)
    nextId entries

/-- One result record of `Location.reverseGeocodeAsync` (the fields
`getLocationName` reads). -/
structure GeocodeRecord where
  name : Option String
  street : Option String
  district : Option String
  city : Option String
  region : Option String
  deriving DecidableEq, Inhabited

/-- JS `Array.prototype.join(sep)`. -/
def jsJoin (sep : String) : List String → String
  | [] => ""
  | [s] => s
  | s :: rest => s ++ sep ++ jsJoin sep rest

/-- The address built from the first device-geocoder record: push each
truthy field, then `parts.filter(Boolean).join(', ')`.  Empty when there
is no record or every field is falsy. -/
def deviceAddress (reverseGeocode : List GeocodeRecord) : String :=
  match reverseGeocode with
  | [] => ""
  | location :: _ =>
    jsJoin ", " (([location.name, location.street, location.district,
      location.city, location.region].filterMap id).filter fun part =>
        !(part == ""))

/-- Zero-padding of a digit string to length `n` (for `toFixed`). -/
def padZeros (s : String) (n : Nat) : String :=
  String.mk (List.replicate (n - s.length) '0') ++ s

/-- JS `Number.prototype.toFixed(4)` on an exact rational: round to the
nearest multiple of `1/10000`, ties toward the larger value, and print
with exactly four decimal places. -/
def toFixed4 (x : ℚ) : String :=
  let n : Int := Rat.floor (x * 10000 + 1 / 2)
  let sign := if n < 0 then "-" else ""
  let m := n.natAbs
  sign ++ toString (m / 10000) ++ "." ++ padZeros (toString (m % 10000)) 4

/-- The coordinate-string fallback label
`latitude.toFixed(4) + ", " + longitude.toFixed(4)`. -/
def coordFallback (latitude longitude : ℚ) : String :=
  toFixed4 latitude ++ ", " ++ toFixed4 longitude

/-- `LocationService.getLocationName` as a function of the two lookup
outcomes: `reverseGeocode` is the device geocoder's result (`Except.error`
when the call throws, in which case the outer catch returns the coordinate
string directly), `googleAddress` is `results[0].formatted_address` of the
remote geocoding response when its status is OK with results (`none` for
any remote failure). -/
def getLocationName (reverseGeocode : Except Unit (List GeocodeRecord))
    (googleAddress : Option String) (latitude longitude : ℚ) : String :=
  match reverseGeocode with
  | Except.error _ => coordFallback latitude longitude
  | Except.ok records =>
    if deviceAddress records ≠ "" then deviceAddress records
    else
      match googleAddress with
      | some address => address
      | none => coordFallback latitude longitude

/-- A constant 50 m distance oracle for concrete detector scenarios. -/
def dist50 : ℚ → ℚ → ℚ → ℚ → ℚ := fun _ _ _ _ => 50

/-- A labeling oracle that always answers `"Home"`. -/
def nameHome : ℚ → ℚ → String := fun _ _ => "Home"

/-- A concrete fix at the origin, captured at epoch 0. -/
def fixA : LocationData := ⟨0, 0, 0, none⟩

/-- A concrete fix near `fixA`, captured at epoch 1000. -/
def fixB : LocationData := ⟨1, 1, 1000, none⟩

/-- A concrete confirmed stay labeled `"Home"`. -/
def homeStay : LocationData := ⟨0, 0, 0, some "Home"⟩

/-- A detector state anchored at `fixA` since epoch 0, with `"Home"` as the
last confirmed stay. -/
def stateAnchored : DetectorState := ⟨some fixA, some 0, some homeStay⟩

/-- A detector state with a running stationary timer (started at epoch 1). -/
def stateWithTimer : DetectorState := ⟨some fixA, some 1, some homeStay⟩

/-- A store holding one stale entry (timestamp 0) under every key. -/
def storeStale : String → List LocationData := fun _ => [⟨0, 0, 0, some "Old"⟩]

/-- A fresh significant location observed at epoch 200000000. -/
def freshLoc : LocationData := ⟨2, 2, 200000000, some "New"⟩

/-- A timeline entry at position 0 with timestamp 100. -/
def entryHome : EditableLocationEntry := ⟨none, "Home", 100, 0, 0, "🏠", 0⟩

/-- A raw history stay whose label matches the `work` icon keyword. -/
def locWork : LocationData := ⟨3, 3, 200, some "Work Office"⟩

/-- A raw history stay sharing `entryHome`'s timestamp. -/
def locDupTs : LocationData := ⟨4, 4, 100, some "Dup"⟩

/-- A persisted timeline row (id 5) for the save-timeline scenario. -/
def rowOld : TimelineRow :=
  ⟨5, 1, "Old Stop", some "2026-10-11T09:00:00.000Z", none, none, none, 0⟩

/-- A valid batch entry for the save-timeline scenario. -/
def inputCafe : TimelineEntryInput :=
  ⟨1, "Cafe", some "2026-10-11T10:00:00.000Z", none, none, none, 0⟩

/-- A batch entry with a missing (empty) label. -/
def inputNoLabel : TimelineEntryInput :=
  ⟨1, "", some "2026-10-11T11:00:00.000Z", none, none, none, 1⟩

/-- C5: the place-change comparison judges two labels the same place
(`hasLocationNameChanged` returns `false`) iff the structured comparison of
the specification holds: parts 0 equal, part 1 missing on a side or equal,
part 2 missing on a side or equal — and an empty label on either side is
always reported as changed. -/
theorem c5_same_place_iff_structured_match (a b : String) :
    hasLocationNameChanged a b = false ↔ samePlaceSpec a b := by
  rw [hasLocationNameChanged]
  by_cases h1 : a = "" ∨ b = ""
  · rw [if_pos h1]
    refine iff_of_false (by simp) ?_
    rintro ⟨ha, hb, -⟩
    rcases h1 with h | h
    · exact ha h
    · exact hb h
  · rw [if_neg h1]
    by_cases h2 : (labelParts a).getD 0 "" ≠ (labelParts b).getD 0 ""
    · rw [if_pos h2]
      refine iff_of_false (by simp) ?_
      rintro ⟨-, -, h0, -⟩
      exact h2 h0
    · rw [if_neg h2]
      by_cases h3 : 1 < (labelParts a).length ∧ 1 < (labelParts b).length ∧
          (labelParts a).getD 1 "" ≠ (labelParts b).getD 1 ""
      · rw [if_pos h3]
        refine iff_of_false (by simp) ?_
        obtain ⟨hla, hlb, hne⟩ := h3
        rintro ⟨-, -, -, h1c, -⟩
        rcases h1c with h | h | h
        · omega
        · omega
        · exact hne h
      · rw [if_neg h3]
        by_cases h4 : 2 < (labelParts a).length ∧ 2 < (labelParts b).length ∧
            (labelParts a).getD 2 "" ≠ (labelParts b).getD 2 ""
        · rw [if_pos h4]
          refine iff_of_false (by simp) ?_
          obtain ⟨hla, hlb, hne⟩ := h4
          rintro ⟨-, -, -, -, h2c⟩
          rcases h2c with h | h | h
          · omega
          · omega
          · exact hne h
        · rw [if_neg h4]
          push_neg at h1
          refine iff_of_true rfl ⟨h1.1, h1.2, not_ne_iff.mp h2, ?_, ?_⟩
          · by_cases hl : 1 < (labelParts a).length
            · by_cases hl' : 1 < (labelParts b).length
              · refine Or.inr (Or.inr ?_)
                by_contra hne
                exact h3 ⟨hl, hl', hne⟩
              · exact Or.inr (Or.inl (by omega))
            · exact Or.inl (by omega)
          · by_cases hl : 2 < (labelParts a).length
            · by_cases hl' : 2 < (labelParts b).length
              · refine Or.inr (Or.inr ?_)
                by_contra hne
                exact h4 ⟨hl, hl', hne⟩
              · exact Or.inr (Or.inl (by omega))
            · exact Or.inl (by omega)

/-- When `lastSignificantLocation` is `null` the step starts tracking and
returns `false`, leaving `lastSignificantLocation` equal to `null`: the
candidate is NOT adopted as a baseline. -/
theorem checkStep_lastSig_none (calcDist : ℚ → ℚ → ℚ → ℚ → ℚ)
    (getName : ℚ → ℚ → String) (now : Int) (s : DetectorState)
    (f : LocationData) (h : s.lastSignificantLocation = none) :
    checkForSignificantLocationChange calcDist getName now s f =
      ({ s with lastLocationUpdate := some f,
                stationaryStartTime := some now }, false) := by
  unfold checkForSignificantLocationChange
  rw [h]

/-- C1 (code bug evidence): starting from the first-ever run, the detector
never reports a significant change, for every distance function, every
labeling function and every sequence of fixes — `lastSignificantLocation`
is never adopted in the null branch, and the confirming branch requires it
to be non-null, so no first stationary window establishes a baseline and
no second, label-different window can ever yield a stay. -/
theorem c1_fresh_detector_never_confirms (calcDist : ℚ → ℚ → ℚ → ℚ → ℚ)
    (getName : ℚ → ℚ → String) (inputs : List (Int × LocationData)) :
    (runDetector calcDist getName initialDetectorState inputs).1.lastSignificantLocation
        = none ∧
    ((runDetector calcDist getName initialDetectorState inputs).2.all fun b => !b)
        = true := by
  suffices h : ∀ (l : List (Int × LocationData)) (s : DetectorState),
      s.lastSignificantLocation = none →
      (runDetector calcDist getName s l).1.lastSignificantLocation = none ∧
      ((runDetector calcDist getName s l).2.all fun b => !b) = true from
    h inputs initialDetectorState rfl
  intro l
  induction l with
  | nil =>
    intro s hs
    simpa [runDetector] using hs
  | cons p rest ih =>
    intro s hs
    rw [runDetector, checkStep_lastSig_none calcDist getName p.1 s p.2 hs]
    obtain ⟨h1, h2⟩ := ih
      { s with lastLocationUpdate := some p.2, stationaryStartTime := some p.1 } hs
    exact ⟨h1, by simpa using h2⟩

/-- C2 counterexample: with the last fix at `fixA` and an incoming fix
`fixB` only 50 m away (within the 100 m radius), the detector does NOT set
its last-fix to the incoming fix — `lastLocationUpdate` stays `fixA`,
refuting "for every incoming fix whose distance from the previous fix is
at most 100 meters, the detector sets its last-fix to the incoming fix". -/
theorem c2_within_radius_lastfix_cex :
    dist50 fixA.latitude fixA.longitude fixB.latitude fixB.longitude
        ≤ LOCATION_RADIUS ∧
    (checkForSignificantLocationChange dist50 nameHome 60000 stateAnchored
        fixB).1.lastLocationUpdate ≠ some fixB := by
  decide

/-- C2 (amended): an incoming fix within 100 m of the last recorded fix
leaves `lastLocationUpdate` unchanged, so the movement-radius check always
compares each new fix against the fix recorded when the current stationary
window started (set on tracking start or on >100 m movement), and — unless
a stay is confirmed — the stationary timer is not reset either; cumulative
drift beyond 100 m of that window-start fix therefore resets the timer. -/
theorem c2_within_radius_keeps_window_fix (calcDist : ℚ → ℚ → ℚ → ℚ → ℚ)
    (getName : ℚ → ℚ → String) (now : Int) (ss : Option Int)
    (lastSig lastUpd f : LocationData)
    (hdist : calcDist lastUpd.latitude lastUpd.longitude f.latitude f.longitude
      ≤ LOCATION_RADIUS) :
    (checkForSignificantLocationChange calcDist getName now
        ⟨some lastUpd, ss, some lastSig⟩ f).1.lastLocationUpdate = some lastUpd ∧
    ((checkForSignificantLocationChange calcDist getName now
        ⟨some lastUpd, ss, some lastSig⟩ f).2 = false →
      (checkForSignificantLocationChange calcDist getName now
        ⟨some lastUpd, ss, some lastSig⟩ f).1.stationaryStartTime = ss) := by
  unfold checkForSignificantLocationChange
  dsimp only
  rw [if_neg (not_lt.mpr hdist)]
  cases ss with
  | none => exact ⟨rfl, fun _ => rfl⟩
  | some t0 =>
    dsimp only
    rw [if_pos hdist]
    by_cases hrip : STATIONARY_THRESHOLD ≤ now - t0
    · rw [if_pos hrip]
      by_cases hch : hasLocationNameChanged (lastSig.locationName.getD "")
          (getName f.latitude f.longitude) = true
      · rw [if_pos hch]
        exact ⟨rfl, by simp⟩
      · rw [if_neg hch]
        exact ⟨rfl, fun _ => rfl⟩
    · rw [if_neg hrip]
      exact ⟨rfl, fun _ => rfl⟩

/-- C2 witness: the amended theorem applied to the concrete 50 m scenario. -/
theorem c2_within_radius_keeps_window_fix_witness :
    (checkForSignificantLocationChange dist50 nameHome 60000
        ⟨some fixA, some 0, some homeStay⟩ fixB).1.lastLocationUpdate
      = some fixA ∧
    ((checkForSignificantLocationChange dist50 nameHome 60000
        ⟨some fixA, some 0, some homeStay⟩ fixB).2 = false →
      (checkForSignificantLocationChange dist50 nameHome 60000
        ⟨some fixA, some 0, some homeStay⟩ fixB).1.stationaryStartTime
        = some 0) :=
  c2_within_radius_keeps_window_fix dist50 nameHome 60000 (some 0) homeStay
    fixA fixB (by decide)

/-- C3 counterexample: a ripe candidate (stationary since epoch 0, now
epoch 600000 ≥ 5 min) rejected as the same place (`"Home"` vs `"Home"`)
leaves `stationaryStartTime` at 0 instead of resetting it to now,
refuting "the detector also resets anchorSince (the stationary clock)". -/
theorem c3_rejection_timer_cex :
    (checkForSignificantLocationChange dist50 nameHome 600000 stateAnchored
        fixB).2 = false ∧
    (checkForSignificantLocationChange dist50 nameHome 600000 stateAnchored
        fixB).1.stationaryStartTime = some 0 ∧
    (0 : Int) ≠ 600000 := by
  decide

/-- C3 (amended): when a ripe candidate is rejected as the same place as
the last confirmed stay, no `Stay` is created and the detector state is
left completely unchanged — in particular `anchorSince`
(`stationaryStartTime`) is NOT reset, so every subsequent within-radius fix
re-runs the lookup and classification while the device remains stationary. -/
theorem c3_rejection_leaves_state_unchanged (calcDist : ℚ → ℚ → ℚ → ℚ → ℚ)
    (getName : ℚ → ℚ → String) (now t0 : Int) (lastSig lastUpd f : LocationData)
    (hdist : calcDist lastUpd.latitude lastUpd.longitude f.latitude f.longitude
      ≤ LOCATION_RADIUS)
    (hrip : STATIONARY_THRESHOLD ≤ now - t0)
    (hch : hasLocationNameChanged (lastSig.locationName.getD "")
      (getName f.latitude f.longitude) = false) :
    checkForSignificantLocationChange calcDist getName now
        ⟨some lastUpd, some t0, some lastSig⟩ f
      = (⟨some lastUpd, some t0, some lastSig⟩, false) := by
  unfold checkForSignificantLocationChange
  dsimp only
  rw [if_neg (not_lt.mpr hdist), if_pos hdist, if_pos hrip,
    if_neg (by simp [hch])]

/-- C3 witness: the amended theorem applied to the ripe same-label
scenario. -/
theorem c3_rejection_leaves_state_unchanged_witness :
    checkForSignificantLocationChange dist50 nameHome 600000
        ⟨some fixA, some 0, some homeStay⟩ fixB
      = (⟨some fixA, some 0, some homeStay⟩, false) :=
  c3_rejection_leaves_state_unchanged dist50 nameHome 600000 0 homeStay
    fixA fixB (by decide) (by decide) (by decide)

/-- C4 counterexample: persisting and restoring a state with a running
stationary timer does not recover it — the restart loses `anchorSince`
(and `lastFix`), refuting "recovers all four DetectorState fields". -/
theorem c4_restart_loses_timer_cex :
    restoreDetectorState (persistDetectorState stateWithTimer)
      ≠ stateWithTimer := by
  decide

/-- C4 (amended): across a persist/restore cycle only
`lastSignificantLocation` (the identity of the last confirmed place)
survives; `lastLocationUpdate` and `stationaryStartTime` (the in-progress
stationary timing) re-initialize to `null`, and consequently the first
fix processed after a restart can never confirm a stay — it only restarts
tracking. -/
theorem c4_restart_preserves_only_last_stay (s : DetectorState)
    (calcDist : ℚ → ℚ → ℚ → ℚ → ℚ) (getName : ℚ → ℚ → String)
    (now : Int) (f : LocationData) :
    restoreDetectorState (persistDetectorState s) =
      { lastLocationUpdate := none
        stationaryStartTime := none
        lastSignificantLocation := s.lastSignificantLocation } ∧
    (checkForSignificantLocationChange calcDist getName now
      (restoreDetectorState (persistDetectorState s)) f).2 = false := by
  refine ⟨rfl, ?_⟩
  cases h : s.lastSignificantLocation with
  | none =>
    rw [checkStep_lastSig_none calcDist getName now
      (restoreDetectorState (persistDetectorState s)) f h]
  | some stay =>
    unfold checkForSignificantLocationChange restoreDetectorState
      persistDetectorState
    rw [h]

/-- C6: after an append to a day's list, no stay older than 24 hours
relative to now remains in a load of that day (the retention filter keeps
only strictly newer timestamps), and any other day's list is untouched. -/
theorem c6_retention_after_append (store : String → List LocationData)
    (todayKey otherKey : String) (location x : LocationData) (now : Int)
    (hmem : x ∈ loadSignificantLocations
      (saveSignificantLocation store todayKey location now) todayKey)
    (hother : otherKey ≠ todayKey) :
    now - x.timestamp ≤ 24 * 60 * 60 * 1000 ∧
    saveSignificantLocation store todayKey location now otherKey
      = store otherKey := by
  constructor
  · unfold loadSignificantLocations saveSignificantLocation at hmem
    rw [if_pos rfl] at hmem
    have h := of_decide_eq_true (List.mem_filter.mp hmem).2
    omega
  · unfold saveSignificantLocation
    rw [if_neg hother]

/-- C6 witness: appending a fresh stay on top of a stale one keeps the
fresh stay within the bound and leaves the other day's key alone. -/
theorem c6_retention_after_append_witness :
    (200000000 : Int) - freshLoc.timestamp ≤ 24 * 60 * 60 * 1000 ∧
    saveSignificantLocation storeStale "2026-10-11" freshLoc 200000000
        "2026-10-10"
      = storeStale "2026-10-10" :=
  c6_retention_after_append storeStale "2026-10-11" "2026-10-10" freshLoc
    freshLoc 200000000 (by decide) (by decide)

/-- Re-indexing changes no entry data other than `order`. -/
theorem reindex_map_entryData_aux (l : List EditableLocationEntry) :
    ∀ n : Nat,
      ((l.enumFrom n).map fun p =>
        ({ p.2 with order := p.1 } : EditableLocationEntry)).map entryData
      = l.map entryData := by
  induction l with
  | nil => intro n; rfl
  | cons a as ih =>
    intro n
    simp only [List.enumFrom, List.map_cons, List.map]
    exact congrArg (entryData a :: ·) (ih (n + 1))

/-- `reindexEntries` preserves all data except positions. -/
theorem reindexEntries_map_entryData (l : List EditableLocationEntry) :
    (reindexEntries l).map entryData = l.map entryData :=
  reindex_map_entryData_aux l 0

/-- Re-indexing numbers the positions consecutively from `n`. -/
theorem reindex_map_order_aux (l : List EditableLocationEntry) :
    ∀ n : Nat,
      ((l.enumFrom n).map fun p =>
        ({ p.2 with order := p.1 } : EditableLocationEntry)).map (fun e => e.order)
      = List.range' n l.length := by
  induction l with
  | nil => intro n; rfl
  | cons a as ih =>
    intro n
    simp only [List.enumFrom, List.map_cons, List.map, List.length_cons,
      List.range'_succ]
    exact congrArg (n :: ·) (ih (n + 1))

/-- `reindexEntries` yields the dense position sequence `0, …, length-1`. -/
theorem reindexEntries_map_order (l : List EditableLocationEntry) :
    (reindexEntries l).map (fun e => e.order) = List.range l.length := by
  rw [List.range_eq_range']
  exact reindex_map_order_aux l 0

/-- `reindexEntries` preserves the timestamps. -/
theorem reindexEntries_map_timestamp (l : List EditableLocationEntry) :
    (reindexEntries l).map (fun e => e.timestamp)
      = l.map fun e => e.timestamp := by
  have h := congrArg (List.map fun d : Option Nat × String × Int × ℚ × ℚ × String
    => d.2.2.1) (reindexEntries_map_entryData l)
  simpa [List.map_map, Function.comp, entryData] using h

/-- The converted incoming entries carry exactly the incoming timestamps
(the `order` base does not affect them). -/
theorem newEntriesOf_map_timestamp (entries : List EditableLocationEntry)
    (locationHistory : List LocationData) :
    (newEntriesOf entries locationHistory).map (fun e => e.timestamp)
      = locationHistory.map fun l => l.timestamp := by
  unfold newEntriesOf
  suffices h : ∀ n : Nat,
      ((locationHistory.enumFrom n).map fun p =>
        editableFromLocation entries.length p.1 p.2).map (fun e => e.timestamp)
      = locationHistory.map fun l => l.timestamp from h 0
  induction locationHistory with
  | nil => intro n; rfl
  | cons a as ih =>
    intro n
    simp only [List.enumFrom, List.map_cons, List.map]
    exact congrArg (a.timestamp :: ·) (ih (n + 1))

/-- Every timestamp of the incoming history is hit by a converted entry. -/
theorem exists_new_entry_of_mem_ts (entries : List EditableLocationEntry)
    (stays : List LocationData) (t : Int)
    (ht : t ∈ stays.map fun l => l.timestamp) :
    ∃ e, e ∈ newEntriesOf entries stays ∧ e.timestamp = t := by
  rw [← newEntriesOf_map_timestamp entries stays] at ht
  obtain ⟨e, he, hts⟩ := List.mem_map.mp ht
  exact ⟨e, he, hts⟩

/-- Every incoming timestamp occurs in the merge result. -/
theorem mem_timestamp_handleAdd (entries : List EditableLocationEntry)
    (stays : List LocationData) (t : Int)
    (ht : t ∈ stays.map fun l => l.timestamp) :
    t ∈ (handleAddFromLocationHistory entries stays).map fun e => e.timestamp := by
  unfold handleAddFromLocationHistory
  by_cases h : 0 < (uniqueNewEntriesOf entries stays).length
  · rw [if_pos h]
    rw [reindexEntries_map_timestamp, List.map_append]
    by_cases hmem : t ∈ entries.map fun e => e.timestamp
    · exact List.mem_append_left _ hmem
    · refine List.mem_append_right _ ?_
      obtain ⟨e, he, hts⟩ := exists_new_entry_of_mem_ts entries stays t ht
      subst hts
      refine List.mem_map_of_mem _ ?_
      unfold uniqueNewEntriesOf
      refine List.mem_filter.mpr ⟨he, ?_⟩
      simp only [Bool.not_eq_true']
      exact Bool.eq_false_iff.mpr fun hc => hmem (List.elem_iff.mp hc)
  · rw [if_neg h]
    have hnil : uniqueNewEntriesOf entries stays = [] :=
      List.length_eq_zero.mp (by omega)
    obtain ⟨e, he, hts⟩ := exists_new_entry_of_mem_ts entries stays t ht
    subst hts
    by_cases hc : ((entries.map fun x => x.timestamp).contains e.timestamp) = true
    · exact List.elem_iff.mp hc
    · exfalso
      have hmemu : e ∈ uniqueNewEntriesOf entries stays := by
        unfold uniqueNewEntriesOf
        refine List.mem_filter.mpr ⟨he, ?_⟩
        simp only [Bool.not_eq_true']
        exact Bool.not_eq_true _ ▸ Bool.of_not_eq_true hc
      rw [hnil] at hmemu
      exact absurd hmemu (List.not_mem_nil e)

/-- Merging the same incoming stays into the result of a first merge adds
nothing: every incoming timestamp is already present. -/
theorem uniqueNew_of_handleAdd_nil (entries : List EditableLocationEntry)
    (stays : List LocationData) :
    uniqueNewEntriesOf (handleAddFromLocationHistory entries stays) stays
      = [] := by
  unfold uniqueNewEntriesOf
  refine List.filter_eq_nil_iff.mpr fun e he => ?_
  simp only [Bool.not_eq_true', Bool.not_eq_false]
  have hts : e.timestamp ∈ stays.map fun l => l.timestamp := by
    rw [← newEntriesOf_map_timestamp (handleAddFromLocationHistory entries stays)
      stays]
    exact List.mem_map_of_mem _ he
  exact List.elem_iff.mpr (mem_timestamp_handleAdd entries stays e.timestamp hts)

/-- C7: on an existing timeline whose positions are the dense `0,…,n-1`
sequence of the data model, the merge drops exactly the incoming stays
whose timestamp equals an existing entry's timestamp, appends the
remaining converted stays (icon derived from the label keywords) after the
existing entries in order, and positions of the result form the dense
0-based sequence over the combined list.  (The embedding is a pure
function, so the inputs are not mutated.) -/
theorem c7_merge_dedup_append_reindex (entries : List EditableLocationEntry)
    (locationHistory : List LocationData)
    (hdense : entries.map (fun e => e.order) = List.range entries.length) :
    (handleAddFromLocationHistory entries locationHistory).map entryData
      = entries.map entryData
        ++ (uniqueNewEntriesOf entries locationHistory).map entryData ∧
    (handleAddFromLocationHistory entries locationHistory).map (fun e => e.order)
      = List.range (entries.length
          + (uniqueNewEntriesOf entries locationHistory).length) := by
  unfold handleAddFromLocationHistory
  by_cases h : 0 < (uniqueNewEntriesOf entries locationHistory).length
  · rw [if_pos h]
    constructor
    · rw [reindexEntries_map_entryData, List.map_append]
    · rw [reindexEntries_map_order, List.length_append]
  · rw [if_neg h]
    have hnil : uniqueNewEntriesOf entries locationHistory = [] :=
      List.length_eq_zero.mp (by omega)
    constructor
    · simp [hnil]
    · simpa [hnil] using hdense

/-- C7 witness: merging one label-distinct, timestamp-distinct history
stay into a one-entry timeline. -/
theorem c7_merge_dedup_append_reindex_witness :
    (handleAddFromLocationHistory [entryHome] [locWork]).map entryData
      = [entryHome].map entryData
        ++ (uniqueNewEntriesOf [entryHome] [locWork]).map entryData ∧
    (handleAddFromLocationHistory [entryHome] [locWork]).map (fun e => e.order)
      = List.range (([entryHome] : List EditableLocationEntry).length
          + (uniqueNewEntriesOf [entryHome] [locWork]).length) :=
  c7_merge_dedup_append_reindex [entryHome] [locWork] (by decide)

/-- C8: the merge is the identity on an empty incoming list (the existing
entries are returned entirely unchanged), and it is idempotent — merging
the same stays a second time changes nothing, so repeated merges introduce
no duplicate timestamps. -/
theorem c8_merge_identity_and_idempotent (entries : List EditableLocationEntry)
    (stays : List LocationData) :
    handleAddFromLocationHistory entries [] = entries ∧
    handleAddFromLocationHistory (handleAddFromLocationHistory entries stays)
        stays
      = handleAddFromLocationHistory entries stays := by
  constructor
  · rfl
  · have hnil := uniqueNew_of_handleAdd_nil entries stays
    conv_lhs => rw [handleAddFromLocationHistory]
    rw [hnil]
    simp

/-- An all-valid batch is persisted in full, in order, with fresh ids. -/
theorem saveAux_all_valid (currentId : Nat) :
    ∀ (entries : List TimelineEntryInput) (db : List TimelineRow) (nextId : Nat),
      (∀ e ∈ entries, validTimelineInput e = true) →
      handleSaveTimelineAux currentId db nextId entries
        = (db ++ createdRows nextId currentId entries, Except.ok ()) := by
  intro entries
  induction entries with
  | nil =>
    intro db nextId _
    simp [handleSaveTimelineAux, createdRows]
  | cons e rest ih =>
    intro db nextId hval
    have hv := hval e (List.mem_cons_self e rest)
    unfold handleSaveTimelineAux
    rw [if_pos hv,
      ih (db ++ [rowOfInput nextId currentId e]) (nextId + 1)
        (fun x hx => hval x (List.mem_cons_of_mem e hx))]
    simp [createdRows, List.append_assoc]

/-- The create loop stops at the first invalid entry: everything before it
is already persisted, the invalid entry raises the validation error. -/
theorem saveAux_stops_at_invalid (currentId : Nat) :
    ∀ (good : List TimelineEntryInput) (db : List TimelineRow) (nextId : Nat)
      (bad : TimelineEntryInput) (rest : List TimelineEntryInput),
      (∀ e ∈ good, validTimelineInput e = true) →
      validTimelineInput bad = false →
      handleSaveTimelineAux currentId db nextId (good ++ bad :: rest)
        = (db ++ createdRows nextId currentId good,
           Except.error "Timeline entry missing required fields") := by
  intro good
  induction good with
  | nil =>
    intro db nextId bad rest _ hbad
    simp only [List.nil_append]
    unfold handleSaveTimelineAux
    rw [if_neg (by simp [hbad])]
    simp [createdRows]
  | cons g gs ih =>
    intro db nextId bad rest hval hbad
    have hv := hval g (List.mem_cons_self g gs)
    simp only [List.cons_append]
    unfold handleSaveTimelineAux
    rw [if_pos hv,
      ih (db ++ [rowOfInput nextId currentId g]) (nextId + 1) bad rest
        (fun x hx => hval x (List.mem_cons_of_mem g hx)) hbad]
    simp [createdRows, List.append_assoc]

/-- C9 counterexample: saving the batch `[valid, missing-label]` over a
day that already holds `rowOld` leaves the store with the valid new row
only — the previously stored row is gone and part of the batch was
persisted despite the validation error, refuting "no partial writes occur
... and previously stored entries are not lost". -/
theorem c9_partial_write_cex :
    handleSaveTimeline [rowOld] 10 1 [some 5] [inputCafe, inputNoLabel]
      = ([rowOfInput 10 1 inputCafe],
         Except.error "Timeline entry missing required fields") ∧
    rowOld ∉ (handleSaveTimeline [rowOld] 10 1 [some 5]
      [inputCafe, inputNoLabel]).1 ∧
    (handleSaveTimeline [rowOld] 10 1 [some 5] [inputCafe, inputNoLabel]).1
      ≠ [] :=
  ⟨rfl, by decide, by decide⟩

/-- C9 (amended): a batch entry with a missing label or timestamp makes
the save fail with the descriptive validation error when that entry is
reached, and the entry itself is not persisted — but the write is not
atomic: the cached existing entries have already been deleted and every
batch entry before the first invalid one has already been created; an
all-valid batch is persisted in full. -/
theorem c9_validation_not_atomic (db : List TimelineRow)
    (nextId currentId : Nat) (existingIds : List (Option Nat))
    (good rest : List TimelineEntryInput) (bad : TimelineEntryInput)
    (hgood : ∀ e ∈ good, validTimelineInput e = true)
    (hbad : validTimelineInput bad = false) :
    handleSaveTimeline db nextId currentId existingIds (good ++ bad :: rest)
      = (deleteExistingEntries db existingIds
          ++ createdRows nextId currentId good,
         Except.error "Timeline entry missing required fields") ∧
    handleSaveTimeline db nextId currentId existingIds good
      = (deleteExistingEntries db existingIds
          ++ createdRows nextId currentId good,
         Except.ok ()) :=
  ⟨saveAux_stops_at_invalid currentId good
      (deleteExistingEntries db existingIds) nextId bad rest hgood hbad,
    saveAux_all_valid currentId good
      (deleteExistingEntries db existingIds) nextId hgood⟩

/-- C9 witness: the amended theorem applied to the concrete scenario. -/
theorem c9_validation_not_atomic_witness :
    handleSaveTimeline [rowOld] 10 1 [some 5]
        ([inputCafe] ++ inputNoLabel :: [])
      = (deleteExistingEntries [rowOld] [some 5]
          ++ createdRows 10 1 [inputCafe],
         Except.error "Timeline entry missing required fields") ∧
    handleSaveTimeline [rowOld] 10 1 [some 5] [inputCafe]
      = (deleteExistingEntries [rowOld] [some 5]
          ++ createdRows 10 1 [inputCafe],
         Except.ok ()) :=
  c9_validation_not_atomic [rowOld] 10 1 [some 5] [inputCafe] [] inputNoLabel
    (by decide) (by decide)

/-- The coordinate-string fallback is never empty (it contains `", "`). -/
theorem coordFallback_ne_empty (latitude longitude : ℚ) :
    coordFallback latitude longitude ≠ "" := by
  intro h
  have h2 : (toFixed4 latitude ++ ", " ++ toFixed4 longitude).length = 0 := by
    rw [show toFixed4 latitude ++ ", " ++ toFixed4 longitude
      = coordFallback latitude longitude from rfl, h]
    rfl
  rw [String.length_append, String.length_append] at h2
  have h3 : (", ").length = 2 := rfl
  omega

/-- C10 (amended): the reverse label lookup is total (never raises — all
adapter failures are values here), it falls back from the device geocoder
to the remote geocoding service to the fixed-precision coordinate string,
and the returned string is non-empty provided that a remote-supplied
formatted address, when one is used, is itself non-empty (the code passes
an empty remote address through unchecked). -/
theorem c10_label_fallback (reverseGeocode : Except Unit (List GeocodeRecord))
    (googleAddress : Option String) (latitude longitude : ℚ)
    (hgoogle : ∀ a, googleAddress = some a → a ≠ "") :
    getLocationName reverseGeocode googleAddress latitude longitude ≠ "" ∧
    (∀ records, reverseGeocode = Except.ok records →
      deviceAddress records = "" → googleAddress = none →
      getLocationName reverseGeocode googleAddress latitude longitude
        = coordFallback latitude longitude) := by
  cases reverseGeocode with
  | error u =>
    refine ⟨coordFallback_ne_empty latitude longitude, ?_⟩
    intro records hr
    exact absurd hr (by simp)
  | ok records =>
    dsimp only [getLocationName]
    by_cases hdev : deviceAddress records ≠ ""
    · rw [if_pos hdev]
      refine ⟨hdev, ?_⟩
      intro r hr hd _
      rw [Except.ok.injEq] at hr
      subst hr
      exact absurd hd hdev
    · rw [if_neg hdev]
      cases googleAddress with
      | some a =>
        refine ⟨hgoogle a rfl, ?_⟩
        intro r hr hd hg
        exact absurd hg (by simp)
      | none =>
        exact ⟨coordFallback_ne_empty latitude longitude,
          fun r hr hd hg => rfl⟩

/-- C10 counterexample: when the device geocoder returns no records and
the remote service answers OK with an empty formatted address, the lookup
returns the empty string — refuting "always returns a usable (non-empty)
string". -/
theorem c10_empty_remote_label_cex :
    getLocationName (Except.ok []) (some "") 0 0 = "" := by
  decide

/-- C10 witness: the amended theorem at a concrete coordinate with both
lookup tiers failed. -/
theorem c10_label_fallback_witness :
    getLocationName (Except.ok []) none 40 (-74) ≠ "" ∧
    (∀ records, (Except.ok [] : Except Unit (List GeocodeRecord))
        = Except.ok records →
      deviceAddress records = "" → (none : Option String) = none →
      getLocationName (Except.ok []) none 40 (-74)
        = coordFallback 40 (-74)) :=
  c10_label_fallback (Except.ok []) none 40 (-74) (fun _ h => nomatch h)

end Chronix
